import Mathlib

/-!
Verification of the clip-connect-proxy service (src/index.js) against its
specification.  The source file contains two near-duplicate variants of the
same Express service:

* Variant A (key-issuing): check-then-insert code generation with up to 10
  tries, sessions carry an `aes_key`; endpoints `/create-session`,
  `/join-session`, `/sync`, `/latest/:sessionId`, `/end-session`.
* Variant B (device-roster): insert-and-detect-conflict code generation with
  up to 5 tries, sessions carry a `device_ids` array; endpoints
  `/create-session`, `/join-session`, `/sync`, `/latest?sessionId=`.

The storage collaborator (Supabase) is modelled as a keyed record store over
explicit in-memory state: a single-row select returns the matching record or
none, an insert appends a record (the store assigns ids from a counter and
`created_at` timestamps from a monotone clock), and fallible calls (inserts,
updates, deletes) take an explicit Boolean outcome standing for whether the
storage call succeeded.  Request-body fields are JSON values, modelled by
`JVal`, so that JavaScript truthiness tests (`!x`) and `typeof x === 'string'`
tests are translated faithfully.
-/

namespace ClipConnect

/-- A JSON value as it appears in a request body field.  `undef` stands for a
field that is absent from the body (JavaScript `undefined`). -/
inductive JVal where
  | str : String → JVal
  | num : Int → JVal
  | boolean : Bool → JVal
  | null : JVal
  | undef : JVal
deriving DecidableEq, Repr

/-- JavaScript truthiness of a body field: `''`, `0`, `false`, `null` and
`undefined` are falsy, everything else is truthy. -/
def JVal.truthy : JVal → Bool
  | .str s => !(s == "")
  | .num n => !(n == 0)
  | .boolean b => b
  | .null => false
  | .undef => false

/-- The test `typeof x === 'string'`. -/
def JVal.isString : JVal → Bool
  | .str _ => true
  | _ => false

/-- The test the spec's claims use: is the value a non-empty string? -/
def JVal.isNonEmptyString : JVal → Bool
  | .str s => !(s == "")
  | _ => false

/-- The validation both `/join-session` variants perform on `code`:
`typeof code === 'string' && code.length === 6`. -/
def JVal.isString6 : JVal → Bool
  | .str c => c.length == 6
  | _ => false

/-- The default alphabet of the `nanoid` library (its `urlAlphabet`), from
which `nanoid(n)` draws every character of its output. -/
def nanoidAlphabet : String :=
  "useandom-26T198340PX75pxJACKVERYMINDBUSHWOLF_GQZbfghjklqvwyzrict"

/-- Whether a character can occur in a `nanoid` output. -/
def isNanoidChar (c : Char) : Bool := nanoidAlphabet.toList.contains c

/-- Whether a string is a possible output of `nanoid n`: length `n`, all
characters drawn from the nanoid alphabet. -/
def isNanoid (n : Nat) (s : String) : Bool :=
  s.length == n && s.toList.all isNanoidChar

/-- JavaScript `String.prototype.toUpperCase`, restricted to the ASCII
strings `nanoid` produces. -/
def jsToUpperCase (s : String) : String := ⟨s.toList.map Char.toUpper⟩

/-- Characters of an uppercased nanoid code: uppercase letters, digits,
dash and underscore. -/
def upperNanoidChar (c : Char) : Bool :=
  (('A' ≤ c && c ≤ 'Z') || ('0' ≤ c && c ≤ '9')) || (c == '-' || c == '_')

/-- Uppercase alphanumeric characters, the character class the spec claims
for session codes. -/
def isUpperAlphanumChar (c : Char) : Bool :=
  ('A' ≤ c && c ≤ 'Z') || ('0' ≤ c && c ≤ '9')

/-- A storage operation issued to the collaborator, recorded in traces so
that statements such as "no storage access is attempted" and "item deletion
happens before session deletion" can be made. -/
inductive Op where
  | findSessionByCode : String → Op
  | insertSession : Op
  | updateSessionDevices : String → Op
  | insertItem : Op
  | deleteItems : JVal → Op
  | deleteSession : JVal → Op
  | queryLatest : String → Op
deriving DecidableEq, Repr

/-! ## Variant A: key-issuing service (first half of src/index.js) -/

/-- A row of the `sessions` table in variant A: `{id, code, aes_key}`.
`id` is assigned by the store on insertion. -/
structure SessionA where
  id : String
  code : String
  aesKey : String
deriving DecidableEq, Repr

/-- A row of the `clipboard_items` table in variant A:
`{session_id, content, created_at}`.  The `/sync` handler of variant A
inserts whatever JSON values the body carried, so both payload fields are
`JVal`. -/
structure ItemA where
  sessionId : JVal
  content : JVal
  createdAt : Nat
deriving DecidableEq, Repr

/-- The store state backing variant A.  `nextId` feeds store-assigned
session ids, `clock` feeds store-assigned `created_at` timestamps. -/
structure StateA where
  sessions : List SessionA
  items : List ItemA
  nextId : Nat
  clock : Nat
deriving DecidableEq, Repr

/-- The select `from('sessions').select().eq('code', code).single()`. -/
def findSessionByCodeA (sessions : List SessionA) (code : String) :
    Option SessionA :=
  sessions.find? (fun s => s.code == code)

/-- The loop body of `generateUniqueSessionCode`: up to `fuel` tries, the
`i`-th try uppercases the `i`-th nanoid output and checks the store for a
session with that code; `!data && !error` means the lookup found nothing.
Returns the generated code (or `none` on exhaustion) together with the
number of lookup attempts made. -/
def genLoopA (sessions : List SessionA) (cands : Nat → String) (i : Nat) :
    Nat → Option String × Nat
  | 0 => (none, 0)
  | fuel + 1 =>
    let code := jsToUpperCase (cands i)
    match findSessionByCodeA sessions code with
    | some _ =>
      let r := genLoopA sessions cands (i + 1) fuel
      (r.1, r.2 + 1)
    | none => (some code, 1)

/-- `generateUniqueSessionCode` (src/index.js lines 29-52): `while (!isUnique
&& tries < 10)`.  `cands i` is the raw output of the `i`-th call to
`nanoid(6)`. -/
def generateUniqueSessionCode (st : StateA) (cands : Nat → String) :
    Option String × Nat :=
  genLoopA st.sessions cands 0 10

/-- Response of `POST /create-session` in variant A.  Exhaustion of the code
loop and an insert failure both surface as HTTP 500, but with different
logged causes, so they are kept apart as error kinds. -/
inductive CreateRespA where
  | ok : String → String → String → CreateRespA
  | exhausted : CreateRespA
  | storageError : CreateRespA
deriving DecidableEq, Repr

/-- `POST /create-session`, variant A (src/index.js lines 54-72): generate a
unique code, generate a key, insert `{code, aes_key}`.  `key` is the output
of `generateKey()` and `okIns` is whether the insert succeeded.  Returns the
response, the resulting store state and the number of code-lookup attempts
made. -/
def createSessionA (st : StateA) (cands : Nat → String) (key : String)
    (okIns : Bool) : CreateRespA × StateA × Nat :=
  match generateUniqueSessionCode st cands with
  | (none, n) => (.exhausted, st, n)
  | (some code, n) =>
    if okIns then
      let id := toString st.nextId
      (.ok id code key,
       { st with
          sessions := st.sessions ++ [⟨id, code, key⟩],
          nextId := st.nextId + 1 }, n)
    else (.storageError, st, n)

/-- Response of `POST /join-session` in variant A. -/
inductive JoinRespA where
  | ok : String → String → JoinRespA
  | invalidInput : JoinRespA
  | notFound : JoinRespA
deriving DecidableEq, Repr

/-- `POST /join-session`, variant A (src/index.js lines 74-91): reject a
`code` that is not a 6-character string with HTTP 400 before any storage
access; otherwise look the session up by code, answering 404 on a miss and
`{sessionId, aesKey}` on a hit.  The handler never mutates the store; it
returns the response and the trace of storage operations. -/
def joinSessionA (st : StateA) (code : JVal) : JoinRespA × List Op :=
  match code with
  | .str c =>
    if c.length == 6 then
      match findSessionByCodeA st.sessions c with
      | some s => (.ok s.id s.aesKey, [.findSessionByCode c])
      | none => (.notFound, [.findSessionByCode c])
    else (.invalidInput, [])
  | _ => (.invalidInput, [])

/-- Response of `POST /sync` (either variant). -/
inductive SyncResp where
  | ok : SyncResp
  | invalidInput : SyncResp
  | storageError : SyncResp
deriving DecidableEq, Repr

/-- `POST /sync`, variant A (src/index.js lines 93-109): `if (!sessionId ||
!clip)` answers 400; otherwise insert `{session_id, content}` with a
store-assigned timestamp.  `okIns` is whether the insert succeeded. -/
def syncA (st : StateA) (sessionId clip : JVal) (okIns : Bool) :
    SyncResp × StateA :=
  if sessionId.truthy && clip.truthy then
    if okIns then
      (.ok,
       { st with
          items := st.items ++ [⟨sessionId, clip, st.clock⟩],
          clock := st.clock + 1 })
    else (.storageError, st)
  else (.invalidInput, st)

/-- The query `order('created_at', desc).limit(1).single()`: the element of
the list with the greatest timestamp, `none` on an empty list.  `stamp`
extracts the timestamp. -/
def maxByCreated {α : Type} (stamp : α → Nat) : List α → Option α
  | [] => none
  | it :: rest =>
    match maxByCreated stamp rest with
    | none => some it
    | some b => if stamp b ≤ stamp it then some it else some b

/-- Response of `GET /latest/:sessionId` in variant A. -/
inductive LatestRespA where
  | ok : JVal → LatestRespA
  | notFound : LatestRespA
deriving DecidableEq, Repr

/-- `GET /latest/:sessionId`, variant A (src/index.js lines 111-127): select
items with `session_id` equal to the path parameter, order by `created_at`
descending, take the single top row; 404 when there is none. -/
def latestA (st : StateA) (sid : String) : LatestRespA :=
  match maxByCreated ItemA.createdAt
      (st.items.filter (fun it => it.sessionId == JVal.str sid)) with
  | some it => .ok it.content
  | none => .notFound

/-- Response of `POST /end-session` in variant A. -/
inductive EndRespA where
  | ok : EndRespA
  | invalidInput : EndRespA
  | storageError : EndRespA
deriving DecidableEq, Repr

/-- `POST /end-session`, variant A (src/index.js lines 129-144): 400 when
`sessionId` is falsy; otherwise delete the clipboard items for the session
(result ignored), then delete the session row, answering 500 exactly when
the session delete failed.  `okDelItems` and `okDelSession` are the outcomes
of the two delete calls.  Returns response, state and storage trace. -/
def endSessionA (st : StateA) (sessionId : JVal)
    (okDelItems okDelSession : Bool) : EndRespA × StateA × List Op :=
  if sessionId.truthy then
    let st1 :=
      if okDelItems then
        { st with items := st.items.filter (fun it => !(it.sessionId == sessionId)) }
      else st
    let st2 :=
      if okDelSession then
        { st1 with sessions := st1.sessions.filter (fun s => !(JVal.str s.id == sessionId)) }
      else st1
    if okDelSession then (.ok, st2, [.deleteItems sessionId, .deleteSession sessionId])
    else (.storageError, st1, [.deleteItems sessionId, .deleteSession sessionId])
  else (.invalidInput, st, [])

/-! ## Variant B: device-roster service (second half of src/index.js) -/

/-- A row of the `sessions` table in variant B: `{id, code, device_ids}`.
`device_ids` is `none` when the column is null (a fresh session is inserted
without it), matching the handler's `data.device_ids || []` read. -/
structure SessionB where
  id : String
  code : String
  deviceIds : Option (List String)
deriving DecidableEq, Repr

/-- A row of the `clipboard_items` table in variant B:
`{session_id, content, from_device, created_at}`.  Both `session_id` and
`content` are strings here, because the handler validates them with
`typeof`; `from_device` is stored as `fromDevice || null`. -/
structure ItemB where
  sessionId : String
  content : String
  fromDevice : JVal
  createdAt : Nat
deriving DecidableEq, Repr

/-- The store state backing variant B. -/
structure StateB where
  sessions : List SessionB
  items : List ItemB
  nextId : Nat
  clock : Nat
deriving DecidableEq, Repr

/-- Response of `POST /create-session` in variant B.  HTTP 500 with body
`'Code generation failed'` (retry budget exhausted) and HTTP 500 with body
`'Failed to create session'` (any other insert error) are distinct. -/
inductive CreateRespB where
  | ok : String → String → CreateRespB
  | exhausted : CreateRespB
  | storageError : CreateRespB
deriving DecidableEq, Repr

/-- The `while (tries < 5)` loop of variant B's `POST /create-session`: the
`i`-th iteration uppercases the `i`-th nanoid output and attempts to insert
`{code}`, relying on the storage-level uniqueness constraint on `code`.
`healthy i` says the `i`-th insert call reached the store: when it did, the
insert fails with error code 23505 exactly when the code is already taken
(and the loop retries); when it did not, the handler answers with the
generic failure at once.  Returns the response, the resulting state and the
number of insert attempts made. -/
def createLoopB (st : StateB) (cands : Nat → String) (healthy : Nat → Bool)
    (i : Nat) : Nat → CreateRespB × StateB × Nat
  | 0 => (.exhausted, st, 0)
  | fuel + 1 =>
    let code := jsToUpperCase (cands i)
    if healthy i then
      if st.sessions.any (fun s => s.code == code) then
        let r := createLoopB st cands healthy (i + 1) fuel
        (r.1, r.2.1, r.2.2 + 1)
      else
        let id := toString st.nextId
        (.ok id code,
         { st with
            sessions := st.sessions ++ [⟨id, code, none⟩],
            nextId := st.nextId + 1 }, 1)
    else (.storageError, st, 1)

/-- `POST /create-session`, variant B (src/index.js, second variant, the
route at its lines 188-207). -/
def createSessionB (st : StateB) (cands : Nat → String)
    (healthy : Nat → Bool) : CreateRespB × StateB × Nat :=
  createLoopB st cands healthy 0 5

/-- Response of `POST /join-session` in variant B. -/
inductive JoinRespB where
  | ok : String → JoinRespB
  | invalidInput : JoinRespB
  | notFound : JoinRespB
deriving DecidableEq, Repr

/-- The select `from('sessions').select().eq('code', code).single()` of
variant B. -/
def findSessionByCodeB (sessions : List SessionB) (code : String) :
    Option SessionB :=
  sessions.find? (fun s => s.code == code)

/-- `POST /join-session`, variant B (src/index.js, second variant, lines
210-235): reject a `code` that is not a 6-character string with 400 before
any storage access; look the session up by code, 404 on a miss.  When a
truthy string `deviceId` was supplied and is not already in the session's
roster, update the row with the roster extended by `deviceId`; the result of
that update is discarded, and the handler answers `{sessionId}` either way.
`okUpd` is whether the update call succeeded. -/
def joinSessionB (st : StateB) (code deviceId : JVal) (okUpd : Bool) :
    JoinRespB × StateB × List Op :=
  match code with
  | .str c =>
    if c.length == 6 then
      match findSessionByCodeB st.sessions c with
      | none => (.notFound, st, [.findSessionByCode c])
      | some s =>
        match deviceId with
        | .str d =>
          if !(d == "") then
            let current := s.deviceIds.getD []
            if current.contains d then (.ok s.id, st, [.findSessionByCode c])
            else
              let st2 :=
                if okUpd then
                  { st with
                      sessions := st.sessions.map (fun t =>
                        if t.id == s.id then
                          { t with deviceIds := some (current ++ [d]) }
                        else t) }
                else st
              (.ok s.id, st2, [.findSessionByCode c, .updateSessionDevices s.id])
          else (.ok s.id, st, [.findSessionByCode c])
        | _ => (.ok s.id, st, [.findSessionByCode c])
    else (.invalidInput, st, [])
  | _ => (.invalidInput, st, [])

/-- `POST /sync`, variant B (src/index.js, second variant, lines 238-252):
400 when `sessionId` or `clip` is not a string; otherwise insert
`{session_id, content, from_device: fromDevice || null}`. -/
def syncB (st : StateB) (sessionId clip fromDevice : JVal) (okIns : Bool) :
    SyncResp × StateB :=
  match sessionId, clip with
  | .str sid, .str c =>
    if okIns then
      (.ok,
       { st with
          items := st.items ++
            [⟨sid, c, if fromDevice.truthy then fromDevice else .null, st.clock⟩],
          clock := st.clock + 1 })
    else (.storageError, st)
  | _, _ => (.invalidInput, st)

/-- Response of `GET /latest` in variant B. -/
inductive LatestRespB where
  | ok : String → JVal → Nat → LatestRespB
  | invalidInput : LatestRespB
  | notFound : LatestRespB
deriving DecidableEq, Repr

/-- `GET /latest?sessionId=`, variant B (src/index.js, second variant, lines
255-276): 400 when the query parameter is not a string; otherwise select the
items of the session ordered by `created_at` descending, take the single top
row and answer `{content, fromDevice, timestamp}`; 404 when there is
none. -/
def latestB (st : StateB) (sessionId : JVal) : LatestRespB :=
  match sessionId with
  | .str sid =>
    match maxByCreated ItemB.createdAt
        (st.items.filter (fun it => it.sessionId == sid)) with
    | some it => .ok it.content it.fromDevice it.createdAt
    | none => .notFound
  | _ => .invalidInput

/-! ## Well-formedness of store states

The store assigns `created_at` from a clock that advances on every insert,
so in every reachable state the items' timestamps are strictly increasing in
insertion order and lie below the clock.  These two facts are the
well-formedness predicate the ordering claims need. -/

/-- Well-formed variant A state: item timestamps strictly increase along the
list, and all lie below the clock. -/
def WFA (st : StateA) : Prop :=
  st.items.Pairwise (fun a b => a.createdAt < b.createdAt) ∧
  ∀ it ∈ st.items, it.createdAt < st.clock

/-- Well-formed variant B state. -/
def WFB (st : StateB) : Prop :=
  st.items.Pairwise (fun a b => a.createdAt < b.createdAt) ∧
  ∀ it ∈ st.items, it.createdAt < st.clock

/-- Duplicate-free device rosters, the invariant of claim C9. -/
def RostersNodup (st : StateB) : Prop :=
  ∀ s ∈ st.sessions, (s.deviceIds.getD []).Nodup


/-- Uppercasing preserves string length. -/
theorem jsToUpperCase_length (s : String) :
    (jsToUpperCase s).length = s.length := by
  show (s.data.map Char.toUpper).length = s.data.length
  exact List.length_map _ _

/-- Uppercasing a nanoid-alphabet character lands in the uppercased nanoid
alphabet. -/
theorem mem_nanoid_upper {c : Char} (h : isNanoidChar c = true) :
    upperNanoidChar (Char.toUpper c) = true := by
  have hall : ∀ x ∈ nanoidAlphabet.toList, upperNanoidChar (Char.toUpper x) = true := by decide
  have hc : c ∈ nanoidAlphabet.toList := by
    have h2 : List.elem c nanoidAlphabet.toList = true := by
      simpa [isNanoidChar, List.contains] using h
    exact List.elem_iff.mp h2
  exact hall c hc

/-- Shape of an uppercased `nanoid 6` output: 6 characters, all from the
uppercased nanoid alphabet. -/
theorem jsToUpperCase_shape {s : String} (h : isNanoid 6 s = true) :
    (jsToUpperCase s).length = 6 ∧
    (jsToUpperCase s).toList.all upperNanoidChar = true := by
  have h0 : (s.length == 6) = true ∧ s.toList.all isNanoidChar = true := by
    simpa [isNanoid, Bool.and_eq_true] using h
  have h1 : s.length = 6 := by simpa using h0.1
  have h2 : ∀ c ∈ s.toList, isNanoidChar c = true := List.all_eq_true.mp h0.2
  refine ⟨by rw [jsToUpperCase_length]; exact h1, ?_⟩
  rw [List.all_eq_true]
  intro c hc
  have he : (jsToUpperCase s).toList = s.toList.map Char.toUpper := rfl
  rw [he] at hc
  obtain ⟨d, hd, rfl⟩ := List.mem_map.mp hc
  exact mem_nanoid_upper (h2 d hd)


/-- When every candidate in the window collides with an existing session,
the check-then-insert loop exhausts its fuel, using one lookup per unit of
fuel. -/
theorem genLoopA_all_collide (sessions : List SessionA) (cands : Nat → String) :
    ∀ fuel i,
      (∀ j, j < fuel → (findSessionByCodeA sessions (jsToUpperCase (cands (i + j)))).isSome = true) →
      genLoopA sessions cands i fuel = (none, fuel)
  | 0, i, _ => rfl
  | fuel + 1, i, h => by
    have h0 := h 0 (Nat.succ_pos _)
    rw [genLoopA]
    cases hf : findSessionByCodeA sessions (jsToUpperCase (cands i)) with
    | none => rw [Nat.add_zero] at h0; rw [hf] at h0; simp at h0
    | some s =>
      have ih := genLoopA_all_collide sessions cands fuel (i + 1) (fun j hj => by
        have := h (j + 1) (by omega)
        simpa [Nat.add_assoc, Nat.add_comm 1 j] using this)
      simp only [ih]

/-- A code returned by the check-then-insert loop passed the lookup (no
live session carries it) and is the uppercased form of one of the candidate
nanoid outputs. -/
theorem genLoopA_some (sessions : List SessionA) (cands : Nat → String) :
    ∀ fuel i code n, genLoopA sessions cands i fuel = (some code, n) →
      findSessionByCodeA sessions code = none ∧
      (∃ j, j < fuel ∧ code = jsToUpperCase (cands (i + j)))
  | 0, i, code, n, h => by simp [genLoopA] at h
  | fuel + 1, i, code, n, h => by
    rw [genLoopA] at h
    cases hf : findSessionByCodeA sessions (jsToUpperCase (cands i)) with
    | none =>
      rw [hf] at h
      simp at h
      obtain ⟨h1, h2⟩ := h
      refine ⟨by rw [← h1]; exact hf, 0, Nat.succ_pos _, by rw [← h1, Nat.add_zero]⟩
    | some s =>
      rw [hf] at h
      simp at h
      obtain ⟨h1, h2⟩ := h
      obtain ⟨hfind, j, hj, hcode⟩ := genLoopA_some sessions cands fuel (i + 1) code _ (by
        rw [Prod.ext_iff]; exact ⟨h1, rfl⟩)
      exact ⟨hfind, j + 1, by omega, by rw [hcode]; ring_nf⟩


/-- When every candidate in the window collides and the store is healthy,
the insert-and-detect loop exhausts its fuel with the state unchanged,
using one insert attempt per unit of fuel. -/
theorem createLoopB_all_collide (st : StateB) (cands : Nat → String) (healthy : Nat → Bool) :
    ∀ fuel i,
      (∀ j, j < fuel → healthy (i + j) = true ∧
        st.sessions.any (fun s => s.code == jsToUpperCase (cands (i + j))) = true) →
      createLoopB st cands healthy i fuel = (.exhausted, st, fuel)
  | 0, i, _ => rfl
  | fuel + 1, i, h => by
    have h0 := h 0 (Nat.succ_pos _)
    rw [Nat.add_zero] at h0
    rw [createLoopB, h0.1, if_pos rfl, h0.2, if_pos rfl]
    have ih := createLoopB_all_collide st cands healthy fuel (i + 1) (fun j hj => by
      have := h (j + 1) (by omega)
      simpa [Nat.add_assoc, Nat.add_comm 1 j] using this)
    simp only [ih]

/-- A successful run of the insert-and-detect loop appends exactly one new
session whose code collided with no pre-existing session and is the
uppercased form of one of the candidate nanoid outputs. -/
theorem createLoopB_ok (st : StateB) (cands : Nat → String) (healthy : Nat → Bool) :
    ∀ fuel i sid code st2 n,
      createLoopB st cands healthy i fuel = (.ok sid code, st2, n) →
      st2.sessions = st.sessions ++ [⟨sid, code, none⟩] ∧
      st2.items = st.items ∧
      (∀ s ∈ st.sessions, s.code ≠ code) ∧
      (∃ j, j < fuel ∧ code = jsToUpperCase (cands (i + j)))
  | 0, i, sid, code, st2, n, h => by simp [createLoopB] at h
  | fuel + 1, i, sid, code, st2, n, h => by
    rw [createLoopB] at h
    by_cases hh : healthy i = true
    · rw [hh, if_pos rfl] at h
      by_cases hc : st.sessions.any (fun s => s.code == jsToUpperCase (cands i)) = true
      · rw [hc, if_pos rfl] at h
        simp at h
        obtain ⟨h1, h2, h3⟩ := h
        obtain ⟨g1, g2, g3, j, hj, hcode⟩ := createLoopB_ok st cands healthy fuel (i + 1) sid code st2 _ (by
          rw [Prod.ext_iff, Prod.ext_iff]; exact ⟨h1, h2, rfl⟩)
        exact ⟨g1, g2, g3, j + 1, by omega, by rw [hcode]; ring_nf⟩
      · rw [Bool.not_eq_true] at hc
        rw [hc] at h
        simp at h
        obtain ⟨⟨hsid, hcode⟩, hst, hn⟩ := h
        refine ⟨?_, ?_, ?_, 0, Nat.succ_pos _, by rw [Nat.add_zero, ← hcode]⟩
        · rw [← hst]; simp [← hsid, ← hcode]
        · rw [← hst]
        · intro s hs
          have hx := List.any_eq_false.mp hc s hs
          rw [← hcode]
          simpa using hx
    · rw [Bool.not_eq_true] at hh
      rw [hh] at h
      simp at h



/-- The latest-row query is empty exactly on the empty list. -/
theorem maxByCreated_eq_none_iff {α : Type} (stamp : α → Nat) :
    ∀ l : List α, maxByCreated stamp l = none ↔ l = []
  | [] => by simp [maxByCreated]
  | it :: rest => by
    rw [maxByCreated]
    cases h : maxByCreated stamp rest with
    | none => simp
    | some b =>
      dsimp only []
      split <;> simp

/-- The latest-row query returns an element of the list whose timestamp
dominates every element. -/
theorem maxByCreated_spec {α : Type} (stamp : α → Nat) :
    ∀ (l : List α) (b : α), maxByCreated stamp l = some b →
      b ∈ l ∧ ∀ x ∈ l, stamp x ≤ stamp b
  | [], b, h => by simp [maxByCreated] at h
  | it :: rest, b, h => by
    rw [maxByCreated] at h
    cases hr : maxByCreated stamp rest with
    | none =>
      rw [hr] at h
      dsimp only [] at h
      have hrest : rest = [] := (maxByCreated_eq_none_iff stamp rest).mp hr
      simp at h
      subst h hrest
      simp
    | some c =>
      rw [hr] at h
      dsimp only [] at h
      obtain ⟨hc, hle⟩ := maxByCreated_spec stamp rest c hr
      by_cases hcmp : stamp c ≤ stamp it
      · rw [if_pos hcmp] at h
        simp at h
        subst h
        refine ⟨List.mem_cons_self _ _, ?_⟩
        intro x hx
        rcases List.mem_cons.mp hx with hx | hx
        · subst hx; exact Nat.le_refl _
        · exact Nat.le_trans (hle x hx) hcmp
      · rw [if_neg hcmp] at h
        simp at h
        subst h
        refine ⟨List.mem_cons_of_mem _ hc, ?_⟩
        intro x hx
        rcases List.mem_cons.mp hx with hx | hx
        · subst hx; omega
        · exact hle x hx

/-- In a list with strictly increasing timestamps, elements are determined
by their timestamp. -/
theorem pairwise_stamp_inj {α : Type} (stamp : α → Nat) :
    ∀ l : List α, l.Pairwise (fun a b => stamp a < stamp b) →
      ∀ a ∈ l, ∀ b ∈ l, stamp a = stamp b → a = b
  | [], _, a, ha, _, _, _ => absurd ha (List.not_mem_nil a)
  | x :: xs, h, a, ha, b, hb, heq => by
    rw [List.pairwise_cons] at h
    rcases List.mem_cons.mp ha with ha | ha <;> rcases List.mem_cons.mp hb with hb | hb
    · rw [ha, hb]
    · have hxb := h.1 b hb
      rw [ha] at heq
      omega
    · have hxa := h.1 a ha
      rw [hb] at heq
      omega
    · exact pairwise_stamp_inj stamp xs h.2 a ha b hb heq


/-- The `/sync` handler of variant A preserves well-formedness: the
appended item carries the current clock, above every earlier timestamp. -/
theorem syncA_wf (st : StateA) (sessionId clip : JVal) (ok : Bool)
    (hwf : WFA st) : WFA (syncA st sessionId clip ok).2 := by
  unfold syncA
  split
  · split
    · refine ⟨?_, ?_⟩
      · rw [List.pairwise_append]
        refine ⟨hwf.1, List.pairwise_singleton _ _, ?_⟩
        intro a ha b hb
        simp at hb
        subst hb
        exact hwf.2 a ha
      · intro it hit
        rcases List.mem_append.mp hit with h | h
        · exact Nat.lt_trans (hwf.2 it h) (Nat.lt_succ_self _)
        · simp at h; subst h; exact Nat.lt_succ_self _
    · exact hwf
  · exact hwf

/-- Variant A `/latest` answers 404 exactly when the session has no
items. -/
theorem latestA_eq_notFound_iff (st : StateA) (sid : String) :
    latestA st sid = .notFound ↔ ∀ it ∈ st.items, it.sessionId ≠ JVal.str sid := by
  unfold latestA
  cases hm : maxByCreated ItemA.createdAt
      (st.items.filter (fun it => it.sessionId == JVal.str sid)) with
  | none =>
    have hnil := (maxByCreated_eq_none_iff _ _).mp hm
    simp only [List.filter_eq_nil_iff] at hnil
    constructor
    · intro _ it hit
      simpa using hnil it hit
    · intro _
      rfl
  | some b =>
    obtain ⟨hb, _⟩ := maxByCreated_spec _ _ _ hm
    rw [List.mem_filter] at hb
    constructor
    · intro h; simp at h
    · intro h
      exact absurd (by simpa using hb.2) (h b hb.1)

/-- In a well-formed state with at least one item for the session, variant
A `/latest` returns the content of the item with the strictly greatest
timestamp among the session's items. -/
theorem latestA_max (st : StateA) (sid : String) (hwf : WFA st) (it0 : ItemA)
    (h0 : it0 ∈ st.items) (hm0 : it0.sessionId = JVal.str sid) :
    ∃ it ∈ st.items, it.sessionId = JVal.str sid ∧
      latestA st sid = .ok it.content ∧
      ∀ j ∈ st.items, j.sessionId = JVal.str sid → j ≠ it →
        j.createdAt < it.createdAt := by
  have hl : it0 ∈ st.items.filter (fun it => it.sessionId == JVal.str sid) :=
    List.mem_filter.mpr ⟨h0, by simpa using hm0⟩
  cases hm : maxByCreated ItemA.createdAt
      (st.items.filter (fun it => it.sessionId == JVal.str sid)) with
  | none =>
    rw [maxByCreated_eq_none_iff] at hm
    rw [hm] at hl
    exact absurd hl (List.not_mem_nil _)
  | some b =>
    obtain ⟨hb, hle⟩ := maxByCreated_spec _ _ _ hm
    have hpw := hwf.1.filter (fun it => it.sessionId == JVal.str sid)
    rw [List.mem_filter] at hb
    refine ⟨b, hb.1, by simpa using hb.2, ?_, ?_⟩
    · unfold latestA
      rw [hm]
    · intro j hj hjm hne
      have hjl : j ∈ st.items.filter (fun it => it.sessionId == JVal.str sid) :=
        List.mem_filter.mpr ⟨hj, by simpa using hjm⟩
      have hjle := hle j hjl
      rcases Nat.lt_or_ge j.createdAt b.createdAt with h | h
      · exact h
      · have heq : j.createdAt = b.createdAt := Nat.le_antisymm hjle h
        exact absurd (pairwise_stamp_inj _ _ hpw j hjl _ (List.mem_filter.mpr ⟨hb.1, by simpa using hb.2⟩) heq) hne


/-- Unfolding of variant B `/latest` at a string-typed query parameter. -/
theorem latestB_str (st : StateB) (sid : String) :
    latestB st (.str sid) =
      match maxByCreated ItemB.createdAt
          (st.items.filter (fun it => it.sessionId == sid)) with
      | some it => .ok it.content it.fromDevice it.createdAt
      | none => .notFound := rfl

/-- Variant B `/latest` answers 404 exactly when the session has no
items. -/
theorem latestB_eq_notFound_iff (st : StateB) (sid : String) :
    latestB st (.str sid) = .notFound ↔ ∀ it ∈ st.items, it.sessionId ≠ sid := by
  rw [latestB_str]
  cases hm : maxByCreated ItemB.createdAt
      (st.items.filter (fun it => it.sessionId == sid)) with
  | none =>
    have hnil := (maxByCreated_eq_none_iff _ _).mp hm
    simp only [List.filter_eq_nil_iff] at hnil
    constructor
    · intro _ it hit
      simpa using hnil it hit
    · intro _
      rfl
  | some b =>
    obtain ⟨hb, _⟩ := maxByCreated_spec _ _ _ hm
    rw [List.mem_filter] at hb
    constructor
    · intro h; simp at h
    · intro h
      exact absurd (by simpa using hb.2) (h b hb.1)

/-- In a well-formed state with at least one item for the session, variant
B `/latest` returns the item with the strictly greatest timestamp among the
session's items. -/
theorem latestB_max (st : StateB) (sid : String) (hwf : WFB st) (it0 : ItemB)
    (h0 : it0 ∈ st.items) (hm0 : it0.sessionId = sid) :
    ∃ it ∈ st.items, it.sessionId = sid ∧
      latestB st (.str sid) = .ok it.content it.fromDevice it.createdAt ∧
      ∀ j ∈ st.items, j.sessionId = sid → j ≠ it →
        j.createdAt < it.createdAt := by
  have hl : it0 ∈ st.items.filter (fun it => it.sessionId == sid) :=
    List.mem_filter.mpr ⟨h0, by simpa using hm0⟩
  cases hm : maxByCreated ItemB.createdAt
      (st.items.filter (fun it => it.sessionId == sid)) with
  | none =>
    rw [maxByCreated_eq_none_iff] at hm
    rw [hm] at hl
    exact absurd hl (List.not_mem_nil _)
  | some b =>
    obtain ⟨hb, hle⟩ := maxByCreated_spec _ _ _ hm
    have hpw := hwf.1.filter (fun it => it.sessionId == sid)
    rw [List.mem_filter] at hb
    refine ⟨b, hb.1, by simpa using hb.2, ?_, ?_⟩
    · rw [latestB_str, hm]
    · intro j hj hjm hne
      have hjl : j ∈ st.items.filter (fun it => it.sessionId == sid) :=
        List.mem_filter.mpr ⟨hj, by simpa using hjm⟩
      have hjle := hle j hjl
      rcases Nat.lt_or_ge j.createdAt b.createdAt with h | h
      · exact h
      · have heq : j.createdAt = b.createdAt := Nat.le_antisymm hjle h
        exact absurd (pairwise_stamp_inj _ _ hpw j hjl _ (List.mem_filter.mpr ⟨hb.1, by simpa using hb.2⟩) heq) hne


/-- Claim C6: in both variants, `JoinSession` fails with `InvalidInput`
(HTTP 400) whenever `code` is not a string of exactly 6 characters, and in
that case performs no storage access (empty storage trace, state
unchanged). -/
theorem claim_C6 (stA : StateA) (stB : StateB) (code deviceId : JVal)
    (okUpd : Bool) (h : code.isString6 = false) :
    (joinSessionA stA code).1 = .invalidInput ∧
    (joinSessionA stA code).2 = [] ∧
    (joinSessionB stB code deviceId okUpd).1 = .invalidInput ∧
    (joinSessionB stB code deviceId okUpd).2.1 = stB ∧
    (joinSessionB stB code deviceId okUpd).2.2 = [] := by
  cases code with
  | str c =>
    simp only [JVal.isString6] at h
    simp [joinSessionA, joinSessionB, h]
  | num n => simp [joinSessionA, joinSessionB]
  | boolean b => simp [joinSessionA, joinSessionB]
  | null => simp [joinSessionA, joinSessionB]
  | undef => simp [joinSessionA, joinSessionB]

/-- Claim C7: in both variants, `JoinSession` with a well-formed 6-character
code carried by no live session (never issued, or its session ended and
hence deleted) fails with the not-found kind (HTTP 404) and never with a
different error kind. -/
theorem claim_C7 (stA : StateA) (stB : StateB) (c : String) (deviceId : JVal)
    (okUpd : Bool) (hlen : c.length = 6)
    (hA : ∀ s ∈ stA.sessions, s.code ≠ c)
    (hB : ∀ s ∈ stB.sessions, s.code ≠ c) :
    (joinSessionA stA (.str c)).1 = .notFound ∧
    (joinSessionB stB (.str c) deviceId okUpd).1 = .notFound := by
  have hfA : findSessionByCodeA stA.sessions c = none := by
    rw [findSessionByCodeA, List.find?_eq_none]
    intro s hs
    simpa using hA s hs
  have hfB : findSessionByCodeB stB.sessions c = none := by
    rw [findSessionByCodeB, List.find?_eq_none]
    intro s hs
    simpa using hB s hs
  simp [joinSessionA, joinSessionB, hlen, hfA, hfB]

/-- Claim C8: `EndSession` issues the item deletion for the session before
the session deletion and issues both regardless of the first outcome; the
items are removed exactly when the item delete succeeded; if the session
delete fails the handler fails with `StorageError` and the session row is
still live (with its items already removed when the item delete had
succeeded); if it succeeds the session row is gone. -/
theorem claim_C8 (st : StateA) (sessionId : JVal) (okDelItems okDelSession : Bool)
    (h : sessionId.truthy = true) :
    (endSessionA st sessionId okDelItems okDelSession).2.2 =
      [Op.deleteItems sessionId, Op.deleteSession sessionId] ∧
    (endSessionA st sessionId okDelItems okDelSession).2.1.items =
      (if okDelItems then st.items.filter (fun it => !(it.sessionId == sessionId))
       else st.items) ∧
    (okDelSession = false →
      (endSessionA st sessionId okDelItems okDelSession).1 = .storageError ∧
      (endSessionA st sessionId okDelItems okDelSession).2.1.sessions = st.sessions) ∧
    (okDelSession = true →
      (endSessionA st sessionId okDelItems okDelSession).1 = .ok ∧
      (endSessionA st sessionId okDelItems okDelSession).2.1.sessions =
        st.sessions.filter (fun s => !(JVal.str s.id == sessionId))) := by
  unfold endSessionA
  rw [h]
  cases okDelSession <;> cases okDelItems <;> simp


/-- Claim C9: in the device-roster variant, `JoinSession` appends `deviceId`
only when it is not already in the roster (when it is, the state is left
untouched), so every state whose rosters are duplicate-free keeps
duplicate-free rosters under every `JoinSession`. -/
theorem claim_C9 (st : StateB) (code deviceId : JVal) (okUpd : Bool)
    (h : RostersNodup st) :
    RostersNodup (joinSessionB st code deviceId okUpd).2.1 ∧
    (∀ c d s, code = .str c → deviceId = .str d →
      findSessionByCodeB st.sessions c = some s →
      d ∈ s.deviceIds.getD [] →
      (joinSessionB st code deviceId okUpd).2.1 = st) := by
  cases code with
  | str c =>
    by_cases hl : (c.length == 6) = true
    · cases hf : findSessionByCodeB st.sessions c with
      | none =>
        constructor
        · simpa [joinSessionB, hl, hf] using h
        · intro c2 d s hc2 _ hfind _
          simp [joinSessionB, hl, hf]
      | some s =>
        have hs : s ∈ st.sessions := List.mem_of_find?_eq_some hf
        cases deviceId with
        | str d =>
          by_cases hd : (d == "") = true
          · constructor
            · simpa [joinSessionB, hl, hf, hd] using h
            · intro c2 d2 s2 hc2 hd2 hfind hmem
              simp [joinSessionB, hl, hf, hd]
          · by_cases hmem : d ∈ s.deviceIds.getD []
            · constructor
              · simpa [joinSessionB, hl, hf, hd, hmem] using h
              · intro c2 d2 s2 hc2 hd2 hfind hmem2
                simp [joinSessionB, hl, hf, hd, hmem]
            · constructor
              · cases okUpd with
                | false => simpa [joinSessionB, hl, hf, hd, hmem] using h
                | true =>
                  simp only [RostersNodup]
                  simp [joinSessionB, hl, hf, hd, hmem]
                  intro t ht
                  by_cases hid : t.id = s.id
                  · rw [if_pos hid]
                    simp only [Option.getD_some]
                    rw [List.nodup_append]
                    refine ⟨h s hs, List.nodup_singleton _, ?_⟩
                    intro x hx hx2
                    simp at hx2
                    subst hx2
                    exact hmem hx
                  · rw [if_neg hid]
                    exact h t ht
              · intro c2 d2 s2 hc2 hd2 hfind hmem2
                injection hc2 with hc2
                injection hd2 with hd2
                subst hc2
                subst hd2
                rw [hf] at hfind
                injection hfind with hfind
                subst hfind
                exact absurd hmem2 hmem
        | num n =>
          constructor
          · simpa [joinSessionB, hl, hf] using h
          · intro c2 d2 s2 _ hd2 _ _
            simp at hd2
        | boolean b =>
          constructor
          · simpa [joinSessionB, hl, hf] using h
          · intro c2 d2 s2 _ hd2 _ _
            simp at hd2
        | null =>
          constructor
          · simpa [joinSessionB, hl, hf] using h
          · intro c2 d2 s2 _ hd2 _ _
            simp at hd2
        | undef =>
          constructor
          · simpa [joinSessionB, hl, hf] using h
          · intro c2 d2 s2 _ hd2 _ _
            simp at hd2
    · constructor
      · simpa [joinSessionB, hl] using h
      · intro c2 d2 s2 hc2 _ _ _
        simp [joinSessionB, hl]
  | num n =>
    exact ⟨by simpa [joinSessionB] using h, by intro _ _ _ hc2 _ _ _; simp at hc2⟩
  | boolean b =>
    exact ⟨by simpa [joinSessionB] using h, by intro _ _ _ hc2 _ _ _; simp at hc2⟩
  | null =>
    exact ⟨by simpa [joinSessionB] using h, by intro _ _ _ hc2 _ _ _; simp at hc2⟩
  | undef =>
    exact ⟨by simpa [joinSessionB] using h, by intro _ _ _ hc2 _ _ _; simp at hc2⟩

/-- Claim C10: in the device-roster variant, `JoinSession` answers HTTP 200
with the sessionId even when the roster-append update fails; the update's
error is discarded and never surfaced (same response as on success, state
unchanged). -/
theorem claim_C10 (st : StateB) (c d : String) (s : SessionB)
    (hlen : c.length = 6) (hd : d ≠ "")
    (hfind : findSessionByCodeB st.sessions c = some s) :
    (joinSessionB st (.str c) (.str d) false).1 = .ok s.id ∧
    (joinSessionB st (.str c) (.str d) false).2.1 = st := by
  have hd2 : (d == "") = false := by simpa using hd
  by_cases hmem : d ∈ s.deviceIds.getD []
  · simp [joinSessionB, hlen, hfind, hd2, hmem]
  · simp [joinSessionB, hlen, hfind, hd2, hmem]


/-- Claim C3 is false as stated: variant B's `/sync` accepts the empty
string (not a non-empty string) for `sessionId` without `InvalidInput`, and
variant A's `/sync` accepts the non-string truthy value `1` for `sessionId`
without `InvalidInput`. -/
theorem c3_counterexample :
    JVal.isNonEmptyString (JVal.str "") = false ∧
    (syncB ⟨[], [], 0, 0⟩ (JVal.str "") (JVal.str "hello") JVal.undef true).1 ≠
      SyncResp.invalidInput ∧
    JVal.isNonEmptyString (JVal.num 1) = false ∧
    (syncA ⟨[], [], 0, 0⟩ (JVal.num 1) (JVal.str "hi") true).1 ≠
      SyncResp.invalidInput := by decide

/-- Claim C3 (amended): variant A's `/sync` fails with `InvalidInput` iff
`sessionId` or `clip` is JavaScript-falsy (so the empty string is rejected
but truthy non-strings are accepted), and variant B's iff `sessionId` or
`clip` is not a string (so empty strings are accepted); when validation
passes, a successful insert appends exactly one new ClipboardItem and a
failed insert surfaces the generic storage error with the state
unchanged. -/
theorem claim_C3 :
    (∀ (st : StateA) (sessionId clip : JVal) (ok : Bool),
      (syncA st sessionId clip ok).1 = .invalidInput ↔
        ¬(sessionId.truthy = true ∧ clip.truthy = true)) ∧
    (∀ (st : StateA) (sessionId clip : JVal),
      sessionId.truthy = true → clip.truthy = true →
      (syncA st sessionId clip true).1 = .ok ∧
      (syncA st sessionId clip true).2.items = st.items ++ [⟨sessionId, clip, st.clock⟩] ∧
      (syncA st sessionId clip false).1 = .storageError ∧
      (syncA st sessionId clip false).2 = st) ∧
    (∀ (st : StateB) (sessionId clip fromDevice : JVal) (ok : Bool),
      (syncB st sessionId clip fromDevice ok).1 = .invalidInput ↔
        ¬(sessionId.isString = true ∧ clip.isString = true)) ∧
    (∀ (st : StateB) (sid c : String) (fromDevice : JVal),
      (syncB st (.str sid) (.str c) fromDevice true).1 = .ok ∧
      (syncB st (.str sid) (.str c) fromDevice true).2.items =
        st.items ++ [⟨sid, c, if fromDevice.truthy then fromDevice else .null, st.clock⟩] ∧
      (syncB st (.str sid) (.str c) fromDevice false).1 = .storageError ∧
      (syncB st (.str sid) (.str c) fromDevice false).2 = st) := by
  refine ⟨?_, ?_, ?_, ?_⟩
  · intro st sessionId clip ok
    by_cases hs : sessionId.truthy = true
    · by_cases hc : clip.truthy = true
      · cases ok <;> simp [syncA, hs, hc]
      · simp only [Bool.not_eq_true] at hc
        simp [syncA, hs, hc]
    · simp only [Bool.not_eq_true] at hs
      simp [syncA, hs]
  · intro st sessionId clip hs hc
    simp [syncA, hs, hc]
  · intro st sessionId clip fromDevice ok
    cases sessionId <;> cases clip <;> cases ok <;> simp [syncB, JVal.isString]
  · intro st sid c fromDevice
    simp [syncB]

/-- Claim C4: in both variants, `Latest` fails with `NotFound` exactly when
zero items exist for the session (including sessions never created or
already ended), and otherwise returns the item of that session with the
strictly greatest `createdAt` timestamp. -/
theorem claim_C4 (stA : StateA) (stB : StateB) (sid : String)
    (hwfA : WFA stA) (hwfB : WFB stB) :
    (latestA stA sid = .notFound ↔ ∀ it ∈ stA.items, it.sessionId ≠ JVal.str sid) ∧
    (∀ it0 ∈ stA.items, it0.sessionId = JVal.str sid →
      ∃ it ∈ stA.items, it.sessionId = JVal.str sid ∧
        latestA stA sid = .ok it.content ∧
        ∀ j ∈ stA.items, j.sessionId = JVal.str sid → j ≠ it →
          j.createdAt < it.createdAt) ∧
    (latestB stB (.str sid) = .notFound ↔ ∀ it ∈ stB.items, it.sessionId ≠ sid) ∧
    (∀ it0 ∈ stB.items, it0.sessionId = sid →
      ∃ it ∈ stB.items, it.sessionId = sid ∧
        latestB stB (.str sid) = .ok it.content it.fromDevice it.createdAt ∧
        ∀ j ∈ stB.items, j.sessionId = sid → j ≠ it →
          j.createdAt < it.createdAt) :=
  ⟨latestA_eq_notFound_iff stA sid,
   fun it0 h0 hm0 => latestA_max stA sid hwfA it0 h0 hm0,
   latestB_eq_notFound_iff stB sid,
   fun it0 h0 hm0 => latestB_max stB sid hwfB it0 h0 hm0⟩


/-- Claim C5: for a single-threaded caller, `Sync(sessionId, c1)` followed
by `Sync(sessionId, c2)` followed by `Latest(sessionId)` returns `c2` (and
hence never `c1` when the contents differ). -/
theorem claim_C5 (st : StateA) (sid c1 c2 : String) (hwf : WFA st)
    (hsid : sid ≠ "") (h1 : c1 ≠ "") (h2 : c2 ≠ "") :
    (syncA st (.str sid) (.str c1) true).1 = .ok ∧
    (syncA (syncA st (.str sid) (.str c1) true).2 (.str sid) (.str c2) true).1 = .ok ∧
    latestA (syncA (syncA st (.str sid) (.str c1) true).2 (.str sid) (.str c2) true).2 sid =
      .ok (.str c2) := by
  have hs : (JVal.str sid).truthy = true := by simp [JVal.truthy, hsid]
  have hc1 : (JVal.str c1).truthy = true := by simp [JVal.truthy, h1]
  have hc2 : (JVal.str c2).truthy = true := by simp [JVal.truthy, h2]
  have e1 : syncA st (.str sid) (.str c1) true =
      (.ok, { st with
        items := st.items ++ [⟨.str sid, .str c1, st.clock⟩],
        clock := st.clock + 1 }) := by
    simp [syncA, hs, hc1]
  have e2 : syncA (syncA st (.str sid) (.str c1) true).2 (.str sid) (.str c2) true =
      (.ok, { st with
        items := (st.items ++ [⟨.str sid, .str c1, st.clock⟩]) ++
          [⟨.str sid, .str c2, st.clock + 1⟩],
        clock := st.clock + 2 }) := by
    rw [e1]
    simp [syncA, hs, hc2]
  have hwf2 : WFA (syncA (syncA st (.str sid) (.str c1) true).2 (.str sid) (.str c2) true).2 :=
    syncA_wf _ _ _ _ (syncA_wf _ _ _ _ hwf)
  refine ⟨by rw [e1], by rw [e2], ?_⟩
  have hit2 : (⟨.str sid, .str c2, st.clock + 1⟩ : ItemA) ∈
      (syncA (syncA st (.str sid) (.str c1) true).2 (.str sid) (.str c2) true).2.items := by
    rw [e2]
    simp
  obtain ⟨it, hmem, hmatch, hlat, hmax⟩ :=
    latestA_max _ sid hwf2 ⟨.str sid, .str c2, st.clock + 1⟩ hit2 rfl
  have hclock : it.createdAt < st.clock + 2 := by
    have := hwf2.2 it hmem
    rw [e2] at this
    exact this
  by_cases heq : (⟨.str sid, .str c2, st.clock + 1⟩ : ItemA) = it
  · rw [hlat, ← heq]
  · have := hmax ⟨.str sid, .str c2, st.clock + 1⟩ hit2 rfl heq
    simp at this
    omega


/-- Claim C1 is false as stated: `"ab_cd1"` is a possible `nanoid(6)`
output, and with it a successful `CreateSession` returns the code
`"AB_CD1"`, which is not alphanumeric. -/
theorem c1_counterexample :
    isNanoid 6 "ab_cd1" = true ∧
    (createSessionA ⟨[], [], 0, 0⟩ (fun _ => "ab_cd1") "key0" true).1 =
      CreateRespA.ok "0" "AB_CD1" "key0" ∧
    "AB_CD1".toList.all isUpperAlphanumChar = false := by decide

/-- Claim C1 (amended): in both variants, a successful `CreateSession`
returns a 6-character code over the uppercased nanoid alphabet (uppercase
letters, digits, dash and underscore — not necessarily alphanumeric) that
equals no other currently-live session's code. -/
theorem claim_C1 :
    (∀ (st : StateA) (cands : Nat → String) (key : String) (okIns : Bool)
        (sid code aesKey : String) (st2 : StateA) (n : Nat),
      (∀ i, isNanoid 6 (cands i) = true) →
      createSessionA st cands key okIns = (.ok sid code aesKey, st2, n) →
      code.length = 6 ∧ code.toList.all upperNanoidChar = true ∧
      ∀ s ∈ st.sessions, s.code ≠ code) ∧
    (∀ (st : StateB) (cands : Nat → String) (healthy : Nat → Bool)
        (sid code : String) (st2 : StateB) (n : Nat),
      (∀ i, isNanoid 6 (cands i) = true) →
      createSessionB st cands healthy = (.ok sid code, st2, n) →
      code.length = 6 ∧ code.toList.all upperNanoidChar = true ∧
      ∀ s ∈ st.sessions, s.code ≠ code) := by
  constructor
  · intro st cands key okIns sid code aesKey st2 n hcands h
    unfold createSessionA at h
    cases hg : generateUniqueSessionCode st cands with
    | mk oc n0 =>
      rw [hg] at h
      cases oc with
      | none => simp at h
      | some c0 =>
        cases okIns with
        | false => simp at h
        | true =>
          simp at h
          obtain ⟨⟨hsid, hcode, hkey⟩, hst, hn⟩ := h
          rw [generateUniqueSessionCode] at hg
          obtain ⟨hfind, j, hj, hshape⟩ := genLoopA_some st.sessions cands 10 0 c0 n0 hg
          subst hcode
          obtain ⟨hlen, hchars⟩ := jsToUpperCase_shape (hcands (0 + j))
          rw [← hshape] at hlen hchars
          refine ⟨hlen, hchars, ?_⟩
          intro s hs
          have := List.find?_eq_none.mp hfind s hs
          simpa using this
  · intro st cands healthy sid code st2 n hcands h
    obtain ⟨hsess, hitems, huniq, j, hj, hshape⟩ :=
      createLoopB_ok st cands healthy 5 0 sid code st2 n h
    obtain ⟨hlen, hchars⟩ := jsToUpperCase_shape (hcands (0 + j))
    rw [← hshape] at hlen hchars
    exact ⟨hlen, hchars, huniq⟩


/-- Claim C2: if every generated candidate collides with a live session,
`CreateSession` fails with the exhaustion kind after exactly the configured
bound of attempts (10 lookups in the check-then-insert variant A, 5 insert
attempts in the insert-and-detect variant B) with zero new Session records
persisted, and a successful `CreateSession` persists exactly one new
Session record. -/
theorem claim_C2 :
    (∀ (st : StateA) (cands : Nat → String) (key : String) (okIns : Bool),
      (∀ j, j < 10 → ∃ s ∈ st.sessions, s.code = jsToUpperCase (cands j)) →
      createSessionA st cands key okIns = (.exhausted, st, 10)) ∧
    (∀ (st : StateA) (cands : Nat → String) (key : String) (okIns : Bool)
        (sid code aesKey : String) (st2 : StateA) (n : Nat),
      createSessionA st cands key okIns = (.ok sid code aesKey, st2, n) →
      st2.sessions = st.sessions ++ [⟨sid, code, aesKey⟩] ∧ st2.items = st.items) ∧
    (∀ (st : StateB) (cands : Nat → String) (healthy : Nat → Bool),
      (∀ j, j < 5 → healthy j = true ∧
        ∃ s ∈ st.sessions, s.code = jsToUpperCase (cands j)) →
      createSessionB st cands healthy = (.exhausted, st, 5)) ∧
    (∀ (st : StateB) (cands : Nat → String) (healthy : Nat → Bool)
        (sid code : String) (st2 : StateB) (n : Nat),
      createSessionB st cands healthy = (.ok sid code, st2, n) →
      st2.sessions = st.sessions ++ [⟨sid, code, none⟩] ∧ st2.items = st.items) := by
  refine ⟨?_, ?_, ?_, ?_⟩
  · intro st cands key okIns hcol
    have hloop : genLoopA st.sessions cands 0 10 = (none, 10) := by
      apply genLoopA_all_collide
      intro j hj
      obtain ⟨s, hs, hcode⟩ := hcol j (by omega)
      simp only [findSessionByCodeA, List.find?_isSome]
      exact ⟨s, hs, by simp [Nat.zero_add, hcode]⟩
    unfold createSessionA generateUniqueSessionCode
    rw [hloop]
  · intro st cands key okIns sid code aesKey st2 n h
    unfold createSessionA at h
    cases hg : generateUniqueSessionCode st cands with
    | mk oc n0 =>
      rw [hg] at h
      cases oc with
      | none => simp at h
      | some c0 =>
        cases okIns with
        | false => simp at h
        | true =>
          simp at h
          obtain ⟨⟨hsid, hcode, hkey⟩, hst, hn⟩ := h
          rw [← hst]
          subst hsid hcode hkey
          exact ⟨rfl, rfl⟩
  · intro st cands healthy hcol
    have hloop : createLoopB st cands healthy 0 5 = (.exhausted, st, 5) := by
      apply createLoopB_all_collide
      intro j hj
      obtain ⟨hh, s, hs, hcode⟩ := hcol j (by omega)
      refine ⟨by simpa using hh, ?_⟩
      rw [List.any_eq_true]
      exact ⟨s, hs, by simp [Nat.zero_add, hcode]⟩
    exact hloop
  · intro st cands healthy sid code st2 n h
    obtain ⟨hsess, hitems, _, _⟩ := createLoopB_ok st cands healthy 5 0 sid code st2 n h
    exact ⟨hsess, hitems⟩


/-- Witness for claim C1 at a concrete successful creation. -/
theorem claim_C1_witness :
    ("ABCDEF" : String).length = 6 ∧
    "ABCDEF".toList.all upperNanoidChar = true ∧
    ∀ s ∈ (⟨[], [], 0, 0⟩ : StateA).sessions, s.code ≠ "ABCDEF" :=
  claim_C1.1 ⟨[], [], 0, 0⟩ (fun _ => "abcdef") "k" true "0" "ABCDEF" "k"
    ⟨[⟨"0", "ABCDEF", "k"⟩], [], 1, 0⟩ 1
    (fun _ => show isNanoid 6 "abcdef" = true by decide) (by decide)

/-- Witness for claim C2 at concrete exhausting and successful runs. -/
theorem claim_C2_witness :
    (createSessionA ⟨[⟨"0", "ABCDEF", "k"⟩], [], 1, 0⟩ (fun _ => "abcdef") "k" true =
      (.exhausted, ⟨[⟨"0", "ABCDEF", "k"⟩], [], 1, 0⟩, 10)) ∧
    ((⟨[⟨"0", "ABCDEF", "k"⟩], [], 1, 0⟩ : StateA).sessions =
      (⟨[], [], 0, 0⟩ : StateA).sessions ++ [⟨"0", "ABCDEF", "k"⟩] ∧
     (⟨[⟨"0", "ABCDEF", "k"⟩], [], 1, 0⟩ : StateA).items =
      (⟨[], [], 0, 0⟩ : StateA).items) ∧
    (createSessionB ⟨[⟨"0", "ABCDEF", none⟩], [], 1, 0⟩ (fun _ => "abcdef") (fun _ => true) =
      (.exhausted, ⟨[⟨"0", "ABCDEF", none⟩], [], 1, 0⟩, 5)) ∧
    ((⟨[⟨"0", "ABCDEF", none⟩], [], 1, 0⟩ : StateB).sessions =
      (⟨[], [], 0, 0⟩ : StateB).sessions ++ [⟨"0", "ABCDEF", none⟩] ∧
     (⟨[⟨"0", "ABCDEF", none⟩], [], 1, 0⟩ : StateB).items =
      (⟨[], [], 0, 0⟩ : StateB).items) :=
  ⟨claim_C2.1 ⟨[⟨"0", "ABCDEF", "k"⟩], [], 1, 0⟩ (fun _ => "abcdef") "k" true
      (fun j _ => ⟨⟨"0", "ABCDEF", "k"⟩, by decide,
        show "ABCDEF" = jsToUpperCase "abcdef" by decide⟩),
   claim_C2.2.1 ⟨[], [], 0, 0⟩ (fun _ => "abcdef") "k" true "0" "ABCDEF" "k"
      ⟨[⟨"0", "ABCDEF", "k"⟩], [], 1, 0⟩ 1 (by decide),
   claim_C2.2.2.1 ⟨[⟨"0", "ABCDEF", none⟩], [], 1, 0⟩ (fun _ => "abcdef") (fun _ => true)
      (fun j _ => ⟨rfl, ⟨"0", "ABCDEF", none⟩, by decide,
        show "ABCDEF" = jsToUpperCase "abcdef" by decide⟩),
   claim_C2.2.2.2 ⟨[], [], 0, 0⟩ (fun _ => "abcdef") (fun _ => true) "0" "ABCDEF"
      ⟨[⟨"0", "ABCDEF", none⟩], [], 1, 0⟩ 1 (by decide)⟩

/-- Witness for claim C3 at a concrete valid sync. -/
theorem claim_C3_witness :
    (syncA ⟨[], [], 0, 0⟩ (.str "a") (.str "b") true).1 = .ok ∧
    (syncA ⟨[], [], 0, 0⟩ (.str "a") (.str "b") true).2.items =
      (⟨[], [], 0, 0⟩ : StateA).items ++ [⟨.str "a", .str "b", 0⟩] ∧
    (syncA ⟨[], [], 0, 0⟩ (.str "a") (.str "b") false).1 = .storageError ∧
    (syncA ⟨[], [], 0, 0⟩ (.str "a") (.str "b") false).2 = ⟨[], [], 0, 0⟩ :=
  claim_C3.2.1 ⟨[], [], 0, 0⟩ (.str "a") (.str "b") (by decide) (by decide)

/-- Witness for claim C4 at a concrete well-formed state. -/
theorem claim_C4_witness :
    latestA ⟨[], [⟨.str "S", .str "w", 0⟩], 0, 1⟩ "S" = .notFound ↔
      ∀ it ∈ (⟨[], [⟨.str "S", .str "w", 0⟩], 0, 1⟩ : StateA).items,
        it.sessionId ≠ JVal.str "S" :=
  (claim_C4 ⟨[], [⟨.str "S", .str "w", 0⟩], 0, 1⟩ ⟨[], [⟨"S", "w", .null, 0⟩], 0, 1⟩ "S"
    (by unfold WFA; decide) (by unfold WFB; decide)).1

/-- Witness for claim C5 at a concrete two-sync run. -/
theorem claim_C5_witness :
    (syncA ⟨[], [], 0, 0⟩ (.str "S") (.str "hello") true).1 = .ok ∧
    (syncA (syncA ⟨[], [], 0, 0⟩ (.str "S") (.str "hello") true).2
      (.str "S") (.str "world") true).1 = .ok ∧
    latestA (syncA (syncA ⟨[], [], 0, 0⟩ (.str "S") (.str "hello") true).2
      (.str "S") (.str "world") true).2 "S" = .ok (.str "world") :=
  claim_C5 ⟨[], [], 0, 0⟩ "S" "hello" "world" (by unfold WFA; decide)
    (by decide) (by decide) (by decide)

/-- Witness for claim C6 at a concrete 3-character code. -/
theorem claim_C6_witness :
    (joinSessionA ⟨[], [], 0, 0⟩ (.str "ABC")).1 = .invalidInput ∧
    (joinSessionA ⟨[], [], 0, 0⟩ (.str "ABC")).2 = [] ∧
    (joinSessionB ⟨[], [], 0, 0⟩ (.str "ABC") .undef true).1 = .invalidInput ∧
    (joinSessionB ⟨[], [], 0, 0⟩ (.str "ABC") .undef true).2.1 = ⟨[], [], 0, 0⟩ ∧
    (joinSessionB ⟨[], [], 0, 0⟩ (.str "ABC") .undef true).2.2 = [] :=
  claim_C6 ⟨[], [], 0, 0⟩ ⟨[], [], 0, 0⟩ (.str "ABC") .undef true (by decide)

/-- Witness for claim C7 at a concrete unknown code. -/
theorem claim_C7_witness :
    (joinSessionA ⟨[⟨"0", "ABCDEF", "k"⟩], [], 1, 0⟩ (.str "ZZZZZZ")).1 = .notFound ∧
    (joinSessionB ⟨[⟨"0", "ABCDEF", none⟩], [], 1, 0⟩ (.str "ZZZZZZ") .undef true).1 =
      .notFound :=
  claim_C7 ⟨[⟨"0", "ABCDEF", "k"⟩], [], 1, 0⟩ ⟨[⟨"0", "ABCDEF", none⟩], [], 1, 0⟩
    "ZZZZZZ" .undef true (by decide) (by decide) (by decide)

/-- Witness for claim C8 at a concrete failing session delete. -/
theorem claim_C8_witness :
    (endSessionA ⟨[⟨"5", "ABCDEF", "k"⟩], [⟨.str "5", .str "x", 0⟩], 6, 1⟩
      (.str "5") true false).1 = .storageError ∧
    (endSessionA ⟨[⟨"5", "ABCDEF", "k"⟩], [⟨.str "5", .str "x", 0⟩], 6, 1⟩
      (.str "5") true false).2.1.sessions = [⟨"5", "ABCDEF", "k"⟩] :=
  (claim_C8 ⟨[⟨"5", "ABCDEF", "k"⟩], [⟨.str "5", .str "x", 0⟩], 6, 1⟩
    (.str "5") true false (by decide)).2.2.1 rfl

/-- Witness for claim C9 at a concrete roster-extending join. -/
theorem claim_C9_witness :
    RostersNodup (joinSessionB ⟨[⟨"7", "ABCDEF", some ["d1"]⟩], [], 8, 0⟩
      (.str "ABCDEF") (.str "d2") true).2.1 :=
  (claim_C9 ⟨[⟨"7", "ABCDEF", some ["d1"]⟩], [], 8, 0⟩ (.str "ABCDEF") (.str "d2") true
    (by unfold RostersNodup; decide)).1

/-- Witness for claim C10 at a concrete failing roster update. -/
theorem claim_C10_witness :
    (joinSessionB ⟨[⟨"7", "ABCDEF", some ["d1"]⟩], [], 8, 0⟩
      (.str "ABCDEF") (.str "d2") false).1 = .ok "7" ∧
    (joinSessionB ⟨[⟨"7", "ABCDEF", some ["d1"]⟩], [], 8, 0⟩
      (.str "ABCDEF") (.str "d2") false).2.1 =
      ⟨[⟨"7", "ABCDEF", some ["d1"]⟩], [], 8, 0⟩ :=
  claim_C10 ⟨[⟨"7", "ABCDEF", some ["d1"]⟩], [], 8, 0⟩ "ABCDEF" "d2"
    ⟨"7", "ABCDEF", some ["d1"]⟩ (by decide) (by decide) (by decide)

end ClipConnect
